import Mathlib

/-!
# Quiz service (`src/main.go`): CSV ingestion, quiz delivery, scoring

A shallow embedding of the request handlers of `src/main.go` over an explicit
model of the `questions` table.  The database is the state: every
`db.Exec` / `db.Select` of the source is one call of `DB.issue`, which records
the statement and consumes one entry of a fault schedule that says whether the
statement errors.  Go's `error` is `Option String` (`none` is `nil`); the text
is the constant prefix of the message the source formats.
-/

set_option autoImplicit false

namespace QuizService

/-! ## Storage -/

/-- A row of the `questions` table, columns as in the `CREATE TABLE` of `InitDB`. -/
structure Row where
  question_id : Nat
  class_id : Int
  question_text : String
  options : List String
  correct_answer : String
deriving DecidableEq

/-- The Go struct `Question`: the four columns `GetTestQuestions` selects. -/
structure Question where
  QuestionID : Nat
  QuestionText : String
  Options : List String
  CorrectAnswer : String
deriving DecidableEq

/-- The column projection of `SELECT question_id, question_text, options, correct_answer`. -/
def Row.toQuestion (r : Row) : Question :=
  ⟨r.question_id, r.question_text, r.options, r.correct_answer⟩

/-- The SQL statements the program sends, with their bound parameters. -/
inductive Stmt where
  | createStudents
  | createQuestions
  | insert (class_id : Int) (question_text : String) (options : List String)
      (correct_answer : String)
  | deleteAll
  | selectQuestions (class_id : Int)
  | selectAnswers (class_id : Int)
deriving DecidableEq

/-- The database behind the global handle `db`: the rows of `questions` in
insertion order, the `SERIAL` counter, the outcomes of the statements still to
come (`true`: the statement returns an error; an exhausted schedule: no error),
and the statements sent so far, oldest first. -/
structure DB where
  rows : List Row
  nextId : Nat
  faults : List Bool
  log : List Stmt
deriving DecidableEq

/-- An empty table on a connection that never errors. -/
def DB.empty : DB := ⟨[], 1, [], []⟩

/-- One statement sent to the database: it is logged and the head of the fault
schedule is consumed; the Boolean is `true` when the statement errors. -/
def DB.issue (db : DB) (s : Stmt) : Bool × DB :=
  (db.faults.headD false, { db with faults := db.faults.tail, log := db.log ++ [s] })

/-- Primary-key invariant of `question_id SERIAL PRIMARY KEY`: ids are pairwise
distinct and below the counter. -/
def DB.wf (db : DB) : Prop :=
  (db.rows.map Row.question_id).Nodup ∧ ∀ r ∈ db.rows, r.question_id < db.nextId

/-! ## `strconv.Atoi` (64-bit `int`) -/

/-- Value of an ASCII decimal digit, `none` for any other character. -/
def digitVal (c : Char) : Option Nat :=
  if 48 ≤ c.toNat ∧ c.toNat ≤ 57 then some (c.toNat - 48) else none

/-- The digit loop `n = n*10 + int(ch)`; `none` is the syntax error. -/
def parseDigits : List Char → Nat → Option Nat
  | [], n => some n
  | c :: cs, n =>
    match digitVal c with
    | none => none
    | some d => parseDigits cs (n * 10 + d)

/-- Model of `strconv.Atoi`: an optional sign, at least one decimal digit, nothing
else, and a value in the range of a 64-bit `int`; `none` when Atoi returns an
error. -/
def Atoi (s : String) : Option Int :=
  match s.toList with
  | [] => none
  | c :: rest =>
    let neg := c = '-'
    let ds := if c = '-' ∨ c = '+' then rest else c :: rest
    if ds = [] then none
    else
      match parseDigits ds 0 with
      | none => none
      | some n =>
        if neg then (if n ≤ 2 ^ 63 then some (-(n : Int)) else none)
        else (if n < 2 ^ 63 then some (n : Int) else none)

/-! ## Requests and responses -/

/-- What `encoding/csv` makes of the uploaded bytes before it counts fields:
a lexical error (bare quote and the like), or the records it splits the text
into. -/
inductive CSVText where
  | malformed
  | lines (rs : List (List String))
deriving DecidableEq

/-- The parts of `*http.Request` the handlers read.  `jsonAnswers` is the result
of `json.NewDecoder(r.Body).Decode(&input)`: `none` when Decode returns an error,
otherwise the decoded `input.Answers`.  `formFile` is `r.FormFile("file")`:
`none` when it returns an error. -/
structure Request where
  query : List (String × String)
  jsonAnswers : Option (List String)
  formFile : Option CSVText

/-- Model of `r.URL.Query().Get(key)`: the first value of the key, the empty string when
the key is absent. -/
def Request.Get (r : Request) (key : String) : String :=
  match r.query.find? (fun p => p.1 == key) with
  | some p => p.2
  | none => ""

/-- Response bodies: a plain-text message, or one of the two JSON objects. -/
inductive Body where
  | text (msg : String)
  | questions (success : Bool) (questions : List Question)
  | score (correct : Nat) (total : Nat)
deriving DecidableEq

/-- What a handler does to the client: a response with a status code, or a
runtime panic before anything is written (the server drops the connection). -/
inductive Outcome where
  | reply (status : Nat) (body : Body)
  | panic
deriving DecidableEq

/-! ## `InitDB` and `main` -/

/-- Source function `InitDB`: `connOk` is the outcome of `sqlx.Open`.  Both `CREATE TABLE`
statements assign to the same `err`; only the value left by the second one is
tested. -/
def InitDB (connOk : Bool) (db : DB) : Option String × DB :=
  if !connOk then (some "could not connect to database", db)
  else
    let r1 := db.issue .createStudents
    let _err : Bool := r1.1
    let r2 := r1.2.issue .createQuestions
    let err : Bool := r2.1
    if err then (some "could not create tables", r2.2) else (none, r2.2)

/-- How `main` leaves its first three lines: `log.Fatal` (the process exits), or
on to the router with the database as `InitDB` left it. -/
inductive Startup where
  | exited
  | serving (db : DB)
deriving DecidableEq

/-- The startup part of `main`. -/
def mainStartup (connOk : Bool) (db : DB) : Startup :=
  match InitDB connOk db with
  | (some _, _) => .exited
  | (none, db1) => .serving db1

/-! ## Question store -/

/-- Source function `InsertQuestion`: one `INSERT`; on success the row is appended with the next
serial id. -/
def InsertQuestion (db : DB) (id_cl : Int) (q : String) (options : List String)
    (cor : String) : Option String × DB :=
  let r := db.issue (.insert id_cl q options cor)
  if r.1 then (some "failed to insert question", r.2)
  else (none, { r.2 with rows := r.2.rows ++ [⟨r.2.nextId, id_cl, q, options, cor⟩],
                         nextId := r.2.nextId + 1 })

/-- Source function `DeleteAllQuestions`: one `DELETE FROM questions`. -/
def DeleteAllQuestions (db : DB) : Option String × DB :=
  let r := db.issue .deleteAll
  if r.1 then (some "failed to delete all questions", r.2)
  else (none, { r.2 with rows := [] })

/-- Source function `GetTestQuestions`: `WHERE class_id = $1 ORDER BY RANDOM() LIMIT 10`.  The
random order is the parameter `rand`, applied to the rows of the class. -/
def GetTestQuestions (rand : List Row → List Row) (db : DB) (classID : Int) :
    Except String (List Question) × DB :=
  let r := db.issue (.selectQuestions classID)
  if r.1 then (.error "error fetching questions", r.2)
  else (.ok (((rand (r.2.rows.filter (fun x => x.class_id = classID))).take 10).map
          Row.toQuestion), r.2)

/-! ## CSV ingestion -/

/-- Model of `reader.ReadAll()` on a reader made by `csv.NewReader`, whose `FieldsPerRecord`
is left at 0: "Read sets it to the number of fields in the first record, so that
future records must have the same field count"; a record of another length makes
ReadAll return `ErrFieldCount` and no records.  `none` is the error. -/
def ReadAll : CSVText → Option (List (List String))
  | .malformed => none
  | .lines [] => some []
  | .lines (first :: rest) =>
    if rest.all (fun r => r.length = first.length) then some (first :: rest) else none

/-- Source function `insertQuestionData`: exactly 7 fields, field 0 an integer, then one insert. -/
def insertQuestionData (db : DB) (record : List String) : Option String × DB :=
  if record.length ≠ 7 then (some "invalid CSV format", db)
  else
    let id_cl := record.getD 0 ""
    let q := record.getD 1 ""
    let ans1 := record.getD 2 ""
    let ans2 := record.getD 3 ""
    let ans3 := record.getD 4 ""
    let ans4 := record.getD 5 ""
    let cor := record.getD 6 ""
    match Atoi id_cl with
    | none => (some "invalid id_cl value", db)
    | some id_cl_int =>
      let options := [ans1, ans2, ans3, ans4]
      match InsertQuestion db id_cl_int q options cor with
      | (some _, db1) => (some "failed to insert question", db1)
      | (none, db1) => (none, db1)

/-- The loop `for i, record := range records` of `ProcessCSVFile`: the first
failing record ends it. -/
def insertRecords : DB → List (List String) → Option String × DB
  | db, [] => (none, db)
  | db, record :: rest =>
    match insertQuestionData db record with
    | (some _, db1) => (some "error inserting data", db1)
    | (none, db1) => insertRecords db1 rest

/-- Source function `ProcessCSVFile`: the form file, the CSV reader, the header
dropped when there is any record, then the insert loop. -/
def ProcessCSVFile (db : DB) (r : Request) : Option String × DB :=
  match r.formFile with
  | none => (some "could not read file", db)
  | some file =>
    match ReadAll file with
    | none => (some "could not read CSV file", db)
    | some records =>
      let records := if records.length > 0 then records.drop 1 else records
      insertRecords db records

/-- Source function `UploadCSVHandler`: 500 on any error of `ProcessCSVFile`. -/
def UploadCSVHandler (db : DB) (r : Request) : Outcome × DB :=
  match ProcessCSVFile db r with
  | (some _, db1) => (.reply 500 (.text "Error uploading CSV file"), db1)
  | (none, db1) => (.reply 200 (.text "CSV uploaded successfully"), db1)

/-- Source function `DeleteAllQuestionsHandler`. -/
def DeleteAllQuestionsHandler (db : DB) (_r : Request) : Outcome × DB :=
  match DeleteAllQuestions db with
  | (some _, db1) => (.reply 500 (.text "Error deleting all questions"), db1)
  | (none, db1) => (.reply 200 (.text "All questions deleted successfully"), db1)

/-! ## Quiz delivery and scoring -/

/-- Source function `GetTestQuestionsHandler`: the two guards on `class`, the
query, 404 on an empty sample. -/
def GetTestQuestionsHandler (rand : List Row → List Row) (db : DB) (r : Request) :
    Outcome × DB :=
  let classID := r.Get "class"
  if classID = "" then (.reply 400 (.text "Class ID is missing"), db)
  else
    match Atoi classID with
    | none => (.reply 400 (.text "Invalid class ID"), db)
    | some classIDInt =>
      match GetTestQuestions rand db classIDInt with
      | (.error _, db1) => (.reply 500 (.text "Error fetching questions"), db1)
      | (.ok questions, db1) =>
        if questions.length = 0 then
          (.reply 404 (.text "No questions found for the specified class"), db1)
        else (.reply 200 (.questions true questions), db1)

/-- The comparison loop of `SubmitAnswersHandler`, from index `i` with the count
so far; `correctAnswers[i]` out of range is the runtime panic, `none`. -/
def compareAnswers (correctAnswers : List String) : List String → Nat → Nat → Option Nat
  | [], _, correctCount => some correctCount
  | answer :: rest, i, correctCount =>
    match correctAnswers[i]? with
    | none => none
    | some c =>
      compareAnswers correctAnswers rest (i + 1)
        (if answer = c then correctCount + 1 else correctCount)

/-- The list `SELECT correct_answer FROM questions WHERE class_id = $1 LIMIT 10`
returns; without `ORDER BY` the order is the storage layer's, the parameter
`order`. -/
def fetchCorrectAnswers (order : List Row → List Row) (db : DB) (classID : Int) :
    List String :=
  ((order (db.rows.filter (fun x => x.class_id = classID))).take 10).map
    Row.correct_answer

/-- Source function `SubmitAnswersHandler`: the decode guard, the guard on `class`,
the query, the comparison loop, and `total` the constant 10. -/
def SubmitAnswersHandler (order : List Row → List Row) (db : DB) (r : Request) :
    Outcome × DB :=
  match r.jsonAnswers with
  | none => (.reply 400 (.text "Invalid answer format"), db)
  | some answers =>
    let classID := r.Get "class"
    match Atoi classID with
    | none => (.reply 400 (.text "Invalid class ID"), db)
    | some classIDInt =>
      let q := db.issue (.selectAnswers classIDInt)
      if q.1 then (.reply 500 (.text "Error fetching correct answers"), q.2)
      else
        let correctAnswers := fetchCorrectAnswers order q.2 classIDInt
        match compareAnswers correctAnswers answers 0 0 with
        | none => (.panic, q.2)
        | some correctCount => (.reply 200 (.score correctCount 10), q.2)

/-- The number of indices `i < len(A)` at which `A[i]` and `C[i]` are the same
string. -/
def matchingIndices (A C : List String) : Nat :=
  ((List.range A.length).filter (fun i => A[i]? = C[i]?)).length

/-! ## What an upload is expected to store -/

/-- The insert a well-formed 7-field record stands for:
`(Atoi(field0), field1, [field2, field3, field4, field5], field6)`. -/
def insertOf (record : List String) : Stmt :=
  .insert ((Atoi (record.getD 0 "")).getD 0) (record.getD 1 "")
    [record.getD 2 "", record.getD 3 "", record.getD 4 "", record.getD 5 ""]
    (record.getD 6 "")

/-- The rows a list of well-formed records becomes, ids counted up from `id`. -/
def rowsFrom : Nat → List (List String) → List Row
  | _, [] => []
  | id, record :: rest =>
    ⟨id, (Atoi (record.getD 0 "")).getD 0, record.getD 1 "",
      [record.getD 2 "", record.getD 3 "", record.getD 4 "", record.getD 5 ""],
      record.getD 6 ""⟩ :: rowsFrom (id + 1) rest

/-- A record `insertQuestionData` accepts: 7 fields, field 0 an integer. -/
def wellFormedRecord (record : List String) : Prop :=
  record.length = 7 ∧ (Atoi (record.getD 0 "")).isSome

instance (record : List String) : Decidable (wellFormedRecord record) := by
  unfold wellFormedRecord; infer_instance

/-! ## Sample data -/

/-- Ten stored questions of class 1 with answers `a` .. `j`, then one of class 2. -/
def tenOfClassOne : DB :=
  { rows := [⟨1, 1, "q1", ["a", "b", "c", "d"], "a"⟩, ⟨2, 1, "q2", ["a", "b", "c", "d"], "b"⟩,
             ⟨3, 1, "q3", ["a", "b", "c", "d"], "c"⟩, ⟨4, 1, "q4", ["a", "b", "c", "d"], "d"⟩,
             ⟨5, 1, "q5", ["e", "f", "g", "h"], "e"⟩, ⟨6, 1, "q6", ["e", "f", "g", "h"], "f"⟩,
             ⟨7, 1, "q7", ["e", "f", "g", "h"], "g"⟩, ⟨8, 1, "q8", ["e", "f", "g", "h"], "h"⟩,
             ⟨9, 1, "q9", ["i", "j", "k", "l"], "i"⟩, ⟨10, 1, "q10", ["i", "j", "k", "l"], "j"⟩,
             ⟨11, 2, "other", ["w", "x", "y", "z"], "z"⟩],
    nextId := 12, faults := [], log := [] }

/-- A `submit-answers?class=<cls>` request whose body decodes to `answers`. -/
def submitRequest (cls : String) (answers : List String) : Request :=
  ⟨[("class", cls)], some answers, none⟩

/-- A `get-test-questions?class=<cls>` request. -/
def getRequest (cls : String) : Request :=
  ⟨[("class", cls)], none, none⟩

/-- A multipart upload whose `file` field lexes into the records `rs`. -/
def uploadRequest (rs : List (List String)) : Request :=
  ⟨[], none, some (.lines rs)⟩

/-! ## Scoring: the comparison loop -/

theorem matchingIndices_cons (a : String) (A C : List String) (i : Nat) :
    ((List.range (a :: A).length).filter (fun j => (a :: A)[j]? = C[i + j]?)).length
      = (if some a = C[i]? then 1 else 0)
        + ((List.range A.length).filter (fun j => A[j]? = C[i + 1 + j]?)).length := by
  have h : ((fun j => decide ((a :: A)[j]? = C[i + j]?)) ∘ Nat.succ)
      = (fun j => decide (A[j]? = C[i + 1 + j]?)) := by
    funext j
    simp [Nat.add_assoc, Nat.add_comm 1 j]
  rw [List.length_cons, List.range_succ_eq_map, List.filter_cons, List.filter_map, h]
  by_cases h0 : some a = C[i]? <;> simp [h0, Nat.add_comm]

/-- The loop started at index `i` with count `n`: it runs to the end exactly when
the remaining answers fit into the fetched list, and then has added the number
of positions that agree. -/
theorem compareAnswers_eq (C : List String) :
    ∀ (A : List String) (i n : Nat), i ≤ C.length →
      compareAnswers C A i n
        = if i + A.length ≤ C.length then
            some (n + ((List.range A.length).filter (fun j => A[j]? = C[i + j]?)).length)
          else none := by
  intro A
  induction A with
  | nil => intro i n hi; simp [compareAnswers, hi]
  | cons a A ih =>
    intro i n hle
    rw [compareAnswers]
    by_cases hi : i < C.length
    · rw [List.getElem?_eq_getElem hi]
      simp only []
      rw [ih _ _ hi, matchingIndices_cons, List.getElem?_eq_getElem hi]
      have e : (i + 1 + A.length ≤ C.length) ↔ (i + (a :: A).length ≤ C.length) := by
        simp only [List.length_cons]; omega
      by_cases hfit : i + (a :: A).length ≤ C.length
      · rw [if_pos (e.mpr hfit), if_pos hfit]
        by_cases hac : a = C[i]
        · simp [hac]; omega
        · simp [hac]
      · rw [if_neg (fun h => hfit (e.mp h)), if_neg hfit]
    · have hnone : C[i]? = none := List.getElem?_eq_none (by omega)
      rw [hnone]
      simp only [List.length_cons]
      rw [if_neg (by omega)]

theorem compareAnswers_zero (C A : List String) :
    compareAnswers C A 0 0
      = if A.length ≤ C.length then some (matchingIndices A C) else none := by
  rw [compareAnswers_eq C A 0 0 (Nat.zero_le _)]
  simp [matchingIndices]

theorem matchingIndices_self (C : List String) : matchingIndices C C = C.length := by
  unfold matchingIndices
  rw [List.filter_eq_self.mpr (by intro i _; simp), List.length_range]

theorem matchingIndices_eq_zero (A C : List String)
    (h : ∀ i, i < A.length → A[i]? ≠ C[i]?) : matchingIndices A C = 0 := by
  unfold matchingIndices
  rw [List.length_eq_zero, List.filter_eq_nil_iff]
  intro i hi
  have := h i (List.mem_range.mp hi)
  simpa using this

theorem matchingIndices_take (A C C1 : List String)
    (h : C1.take A.length = C.take A.length) : matchingIndices A C1 = matchingIndices A C := by
  unfold matchingIndices
  congr 1
  apply List.filter_congr
  intro i hi
  have hi := List.mem_range.mp hi
  have e1 : C1[i]? = (C1.take A.length)[i]? := by rw [List.getElem?_take, if_pos hi]
  have e2 : C[i]? = (C.take A.length)[i]? := by rw [List.getElem?_take, if_pos hi]
  rw [e1, e2, h]

/-- The handler past its three guards: the outcome is the comparison loop's. -/
theorem SubmitAnswersHandler_past_guards (order : List Row → List Row) (db : DB)
    (r : Request) (A : List String) (X : Int)
    (hbody : r.jsonAnswers = some A) (hclass : Atoi (r.Get "class") = some X)
    (hq : db.faults.headD false = false) :
    (SubmitAnswersHandler order db r).1
      = match compareAnswers (fetchCorrectAnswers order db X) A 0 0 with
        | none => .panic
        | some n => .reply 200 (.score n 10) := by
  unfold SubmitAnswersHandler
  simp only [hbody, hclass, DB.issue, hq, fetchCorrectAnswers]
  simp only [Bool.false_eq_true, if_false]
  split <;> rfl

/-! ## Scoring: the claims -/

/-- C1: when the body decodes to `A`, `class` parses and the query succeeds, and `A`
is no longer than the fetched list `C`, the answer is 200 with `correct` the
number of indices `i < len(A)` with `A[i] = C[i]` and `total` 10; so a ten-element
`A = C` scores 10 of 10, and an `A` that differs from `C` everywhere scores 0. -/
theorem C1_submit_counts_matching_indices (order : List Row → List Row) (db : DB)
    (r : Request) (A : List String) (X : Int)
    (hbody : r.jsonAnswers = some A) (hclass : Atoi (r.Get "class") = some X)
    (hq : db.faults.headD false = false)
    (hlen : A.length ≤ (fetchCorrectAnswers order db X).length) :
    (SubmitAnswersHandler order db r).1
        = .reply 200 (.score (matchingIndices A (fetchCorrectAnswers order db X)) 10)
    ∧ (A = fetchCorrectAnswers order db X → A.length = 10 →
        (SubmitAnswersHandler order db r).1 = .reply 200 (.score 10 10))
    ∧ ((∀ i, i < A.length → A[i]? ≠ (fetchCorrectAnswers order db X)[i]?) →
        (SubmitAnswersHandler order db r).1 = .reply 200 (.score 0 10)) := by
  have hmain : (SubmitAnswersHandler order db r).1
      = .reply 200 (.score (matchingIndices A (fetchCorrectAnswers order db X)) 10) := by
    rw [SubmitAnswersHandler_past_guards order db r A X hbody hclass hq,
      compareAnswers_zero, if_pos hlen]
  refine ⟨hmain, ?_, ?_⟩
  · intro hAC h10
    rw [hmain, ← hAC, matchingIndices_self, h10]
  · intro hdiff
    rw [hmain, matchingIndices_eq_zero A _ hdiff]

/-- C1 at the ten stored answers of class 1 submitted in the fetched order. -/
theorem C1_submit_counts_matching_indices_witness :
    (submitRequest "1" ["a", "b", "c", "d", "e", "f", "g", "h", "i", "j"]).jsonAnswers
        = some ["a", "b", "c", "d", "e", "f", "g", "h", "i", "j"]
    ∧ Atoi ((submitRequest "1" ["a", "b", "c", "d", "e", "f", "g", "h", "i", "j"]).Get "class")
        = some 1
    ∧ ["a", "b", "c", "d", "e", "f", "g", "h", "i", "j"]
        = fetchCorrectAnswers id tenOfClassOne 1
    ∧ (SubmitAnswersHandler id tenOfClassOne
        (submitRequest "1" ["a", "b", "c", "d", "e", "f", "g", "h", "i", "j"])).1
        = .reply 200 (.score 10 10) :=
  ⟨rfl, by decide, by decide,
    (C1_submit_counts_matching_indices id tenOfClassOne
      (submitRequest "1" ["a", "b", "c", "d", "e", "f", "g", "h", "i", "j"])
      ["a", "b", "c", "d", "e", "f", "g", "h", "i", "j"] 1 rfl (by decide) rfl
      (by decide)).2.1 (by decide) (by decide)⟩

/-- C2: past the guards, the loop indexes the fetched list out of range exactly
when more answers were submitted than fetched, and then no response is written;
otherwise it completes with a score, and that outcome is the same for any other
fetched list that agrees on the first `len(A)` entries. -/
theorem C2_out_of_range_iff_longer (order : List Row → List Row) (db : DB)
    (r : Request) (A : List String) (X : Int)
    (hbody : r.jsonAnswers = some A) (hclass : Atoi (r.Get "class") = some X)
    (hq : db.faults.headD false = false) :
    (compareAnswers (fetchCorrectAnswers order db X) A 0 0 = none
        ↔ (fetchCorrectAnswers order db X).length < A.length)
    ∧ ((SubmitAnswersHandler order db r).1 = .panic
        ↔ (fetchCorrectAnswers order db X).length < A.length)
    ∧ (A.length ≤ (fetchCorrectAnswers order db X).length →
        ∃ n, compareAnswers (fetchCorrectAnswers order db X) A 0 0 = some n
          ∧ (SubmitAnswersHandler order db r).1 = .reply 200 (.score n 10))
    ∧ (A.length ≤ (fetchCorrectAnswers order db X).length →
        ∀ (order1 : List Row → List Row) (db1 : DB), db1.faults.headD false = false →
          (fetchCorrectAnswers order1 db1 X).take A.length
            = (fetchCorrectAnswers order db X).take A.length →
          (SubmitAnswersHandler order1 db1 r).1 = (SubmitAnswersHandler order db r).1) := by
  have hloop := compareAnswers_zero (fetchCorrectAnswers order db X) A
  have hmain := SubmitAnswersHandler_past_guards order db r A X hbody hclass hq
  refine ⟨?_, ?_, ?_, ?_⟩
  · rw [hloop]
    by_cases h : A.length ≤ (fetchCorrectAnswers order db X).length
    · simp [h]
    · simp [h]; omega
  · rw [hmain, hloop]
    by_cases h : A.length ≤ (fetchCorrectAnswers order db X).length
    · simp [h]
    · simp [h]; omega
  · intro h
    refine ⟨matchingIndices A (fetchCorrectAnswers order db X), ?_, ?_⟩
    · rw [hloop, if_pos h]
    · rw [hmain, hloop, if_pos h]
  · intro h order1 db1 hq1 htake
    have hlen1 : A.length ≤ (fetchCorrectAnswers order1 db1 X).length := by
      have := congrArg List.length htake
      rw [List.length_take, List.length_take] at this
      omega
    rw [hmain, SubmitAnswersHandler_past_guards order1 db1 r A X hbody hclass hq1,
      hloop, compareAnswers_zero, if_pos h, if_pos hlen1, matchingIndices_take A _ _ htake]

/-- C2 at eleven answers against the ten stored answers of class 1: a panic. -/
theorem C2_out_of_range_iff_longer_witness :
    (fetchCorrectAnswers id tenOfClassOne 1).length
        < ["a", "b", "c", "d", "e", "f", "g", "h", "i", "j", "k"].length
    ∧ (SubmitAnswersHandler id tenOfClassOne
        (submitRequest "1" ["a", "b", "c", "d", "e", "f", "g", "h", "i", "j", "k"])).1
        = .panic :=
  ⟨by decide,
    (C2_out_of_range_iff_longer id tenOfClassOne
      (submitRequest "1" ["a", "b", "c", "d", "e", "f", "g", "h", "i", "j", "k"])
      ["a", "b", "c", "d", "e", "f", "g", "h", "i", "j", "k"] 1 rfl (by decide)
      rfl).2.1.mpr (by decide)⟩

/-- C3: with no question stored for class 1, a well-formed body with one answer
and `class=1`, on a query that succeeds, ends in the panic of `correctAnswers[0]`
on an empty list: no 200 response and no `total` is written. -/
theorem C3_submit_one_answer_empty_class_panics :
    (submitRequest "1" ["a"]).jsonAnswers = some ["a"]
    ∧ Atoi ((submitRequest "1" ["a"]).Get "class") = some 1
    ∧ DB.empty.faults.headD false = false
    ∧ fetchCorrectAnswers id DB.empty 1 = []
    ∧ (SubmitAnswersHandler id DB.empty (submitRequest "1" ["a"])).1 = .panic
    ∧ ∀ n, (SubmitAnswersHandler id DB.empty (submitRequest "1" ["a"])).1
        ≠ .reply 200 (.score n 10) := by
  refine ⟨rfl, by decide, rfl, rfl, by decide, ?_⟩
  intro n h
  have hp : (SubmitAnswersHandler id DB.empty (submitRequest "1" ["a"])).1 = .panic := by
    decide
  rw [hp] at h
  exact Outcome.noConfusion h

/-! ## CSV ingestion: the claims -/

theorem rowsFrom_length (id : Nat) (data : List (List String)) :
    (rowsFrom id data).length = data.length := by
  induction data generalizing id with
  | nil => rfl
  | cons a t ih => simp [rowsFrom, ih]

theorem rowsFrom_options (id : Nat) (data : List (List String)) :
    (rowsFrom id data).map Row.options
      = data.map (fun record =>
          [record.getD 2 "", record.getD 3 "", record.getD 4 "", record.getD 5 ""]) := by
  induction data generalizing id with
  | nil => rfl
  | cons a t ih => simp [rowsFrom, ih]

/-- One accepted record whose insert succeeds: one statement, one new row. -/
theorem insertQuestionData_ok (db : DB) (record : List String)
    (hrec : wellFormedRecord record) (hq : db.faults.headD false = false) :
    insertQuestionData db record
      = (none, { rows := db.rows ++ rowsFrom db.nextId [record],
                 nextId := db.nextId + 1,
                 faults := db.faults.tail,
                 log := db.log ++ [insertOf record] }) := by
  obtain ⟨hlen, hint⟩ := hrec
  obtain ⟨n, hn⟩ := Option.isSome_iff_exists.mp hint
  unfold insertQuestionData
  rw [if_neg (by simp [hlen])]
  simp only [hn, InsertQuestion, DB.issue, hq, insertOf, rowsFrom, Option.getD_some]
  rfl

/-- The loop over accepted records whose inserts all succeed. -/
theorem insertRecords_ok (data : List (List String)) :
    ∀ (db : DB), (∀ record ∈ data, wellFormedRecord record) →
      (∀ b ∈ db.faults.take data.length, b = false) →
      insertRecords db data
        = (none, { rows := db.rows ++ rowsFrom db.nextId data,
                   nextId := db.nextId + data.length,
                   faults := db.faults.drop data.length,
                   log := db.log ++ data.map insertOf }) := by
  induction data with
  | nil => intro db _ _; simp [insertRecords, rowsFrom]
  | cons record rest ih =>
    intro db hwf hfaults
    have hhead : db.faults.headD false = false := by
      cases hf : db.faults with
      | nil => rfl
      | cons b t => exact hfaults b (by simp [hf])
    have htail : ∀ b ∈ db.faults.tail.take rest.length, b = false := by
      intro b hb
      cases hf : db.faults with
      | nil => simp [hf] at hb
      | cons c t =>
        rw [hf] at hb
        exact hfaults b (by rw [hf]; simp only [List.length_cons, List.take_succ_cons]
                            exact List.mem_cons_of_mem _ hb)
    rw [insertRecords, insertQuestionData_ok db record (hwf record (List.mem_cons_self _ _)) hhead]
    simp only []
    rw [ih _ (fun x hx => hwf x (List.mem_cons_of_mem _ hx)) htail]
    simp only [rowsFrom, List.append_assoc, List.singleton_append, List.map_cons,
      List.length_cons, List.drop_succ_cons, Prod.mk.injEq, true_and]
    cases hf : db.faults <;> simp [Nat.add_assoc, Nat.add_comm 1]

/-- Unfolding of `ProcessCSVFile` on parsed records: the first one is dropped, the loop runs on
the rest. -/
theorem ProcessCSVFile_parsed (db : DB) (r : Request) (file : CSVText)
    (hdr : List String) (data : List (List String))
    (hfile : r.formFile = some file) (hparsed : ReadAll file = some (hdr :: data)) :
    ProcessCSVFile db r = insertRecords db data := by
  unfold ProcessCSVFile
  simp [hfile, hparsed]

/-- C4: parsed records being a header and `N` data records, each of 7 fields with
an integer field 0, and the `N` inserts succeeding, `ProcessCSVFile` succeeds and
sends exactly the `N` inserts `(Atoi(f0), f1, [f2, f3, f4, f5], f6)` in record
order, none for the header; the table gains one row per data record, so from an
empty table it holds `N` rows with their 4 options in the original order. -/
theorem C4_upload_inserts_every_data_record (db : DB) (r : Request) (file : CSVText)
    (hdr : List String) (data : List (List String))
    (hfile : r.formFile = some file)
    (hparsed : ReadAll file = some (hdr :: data))
    (hwf : ∀ record ∈ data, record.length = 7 ∧ (Atoi (record.getD 0 "")).isSome)
    (hins : ∀ b ∈ db.faults.take data.length, b = false) :
    (ProcessCSVFile db r).1 = none
    ∧ (UploadCSVHandler db r).1 = .reply 200 (.text "CSV uploaded successfully")
    ∧ (ProcessCSVFile db r).2.log = db.log ++ data.map insertOf
    ∧ (ProcessCSVFile db r).2.rows = db.rows ++ rowsFrom db.nextId data
    ∧ (UploadCSVHandler db r).2 = (ProcessCSVFile db r).2
    ∧ (db.rows = [] →
        (ProcessCSVFile db r).2.rows.length = data.length
        ∧ (ProcessCSVFile db r).2.rows.map Row.options
            = data.map (fun record =>
                [record.getD 2 "", record.getD 3 "", record.getD 4 "", record.getD 5 ""])) := by
  have hrun := insertRecords_ok data db hwf hins
  have hp := ProcessCSVFile_parsed db r file hdr data hfile hparsed
  have hup : UploadCSVHandler db r
      = (.reply 200 (.text "CSV uploaded successfully"), (ProcessCSVFile db r).2) := by
    unfold UploadCSVHandler
    rw [hp, hrun]
  refine ⟨by rw [hp, hrun], by rw [hup], by rw [hp, hrun], by rw [hp, hrun], by rw [hup], ?_⟩
  intro hempty
  rw [hp, hrun]
  simp only [hempty, List.nil_append]
  exact ⟨rowsFrom_length _ _, rowsFrom_options _ _⟩

/-- C4 at a header and two data records uploaded into the empty table. -/
theorem C4_upload_inserts_every_data_record_witness :
    (ProcessCSVFile DB.empty (uploadRequest
        [["class_id", "question_text", "option1", "option2", "option3", "option4",
          "correct_answer"],
         ["5", "2+2?", "3", "4", "5", "6", "4"],
         ["-7", "3*3?", "6", "7", "8", "9", "9"]])).2.rows
      = [⟨1, 5, "2+2?", ["3", "4", "5", "6"], "4"⟩, ⟨2, -7, "3*3?", ["6", "7", "8", "9"], "9"⟩] :=
  (C4_upload_inserts_every_data_record DB.empty (uploadRequest
        [["class_id", "question_text", "option1", "option2", "option3", "option4",
          "correct_answer"],
         ["5", "2+2?", "3", "4", "5", "6", "4"],
         ["-7", "3*3?", "6", "7", "8", "9", "9"]])
      (.lines [["class_id", "question_text", "option1", "option2", "option3", "option4",
          "correct_answer"],
         ["5", "2+2?", "3", "4", "5", "6", "4"],
         ["-7", "3*3?", "6", "7", "8", "9", "9"]])
      ["class_id", "question_text", "option1", "option2", "option3", "option4",
          "correct_answer"]
      [["5", "2+2?", "3", "4", "5", "6", "4"], ["-7", "3*3?", "6", "7", "8", "9", "9"]]
      rfl (by decide) (by decide) (by decide)).2.2.2.1.trans (by decide)

/-- What `ReadAll` returns has one field count throughout. -/
theorem ReadAll_uniform (hdr : List String) (data : List (List String))
    (records : List (List String)) (h : ReadAll (.lines (hdr :: data)) = some records) :
    records = hdr :: data ∧ ∀ record ∈ data, record.length = hdr.length := by
  have hdef : ReadAll (.lines (hdr :: data))
      = if data.all (fun r => r.length = hdr.length) then some (hdr :: data) else none := rfl
  rw [hdef] at h
  by_cases hall : data.all (fun r => decide (r.length = hdr.length)) = true
  · rw [if_pos hall] at h
    refine ⟨(Option.some.inj h).symm, ?_⟩
    intro record hmem
    have := List.all_eq_true.mp hall record hmem
    simpa using this
  · rw [if_neg hall] at h
    exact absurd h (by simp)

/-- A record of the wrong field count is refused before any statement is sent. -/
theorem insertQuestionData_bad_length (db : DB) (record : List String)
    (h : record.length ≠ 7) :
    insertQuestionData db record = (some "invalid CSV format", db) := by
  unfold insertQuestionData
  rw [if_pos h]

/-- A 7-field record whose field 0 is no integer is refused before any statement is
sent. -/
theorem insertQuestionData_bad_class (db : DB) (record : List String)
    (hlen : record.length = 7) (h : Atoi (record.getD 0 "") = none) :
    insertQuestionData db record = (some "invalid id_cl value", db) := by
  unfold insertQuestionData
  rw [if_neg (by simp [hlen])]
  simp only [h]

/-- The loop runs through a prefix of accepted records and goes on with the rest. -/
theorem insertRecords_append (good rest : List (List String)) :
    ∀ (db : DB), (∀ record ∈ good, wellFormedRecord record) →
      (∀ b ∈ db.faults.take good.length, b = false) →
      insertRecords db (good ++ rest)
        = insertRecords (insertRecords db good).2 rest := by
  induction good with
  | nil => intro db _ _; rfl
  | cons record more ih =>
    intro db hwf hfaults
    have hhead : db.faults.headD false = false := by
      cases hf : db.faults with
      | nil => rfl
      | cons b t => exact hfaults b (by simp [hf])
    have h1 := insertQuestionData_ok db record (hwf record (List.mem_cons_self _ _)) hhead
    rw [List.cons_append, insertRecords, insertRecords, h1]
    simp only []
    apply ih _ (fun x hx => hwf x (List.mem_cons_of_mem _ hx))
    intro b hb
    simp only [] at hb
    cases hf : db.faults with
    | nil => simp [hf] at hb
    | cons c t =>
      rw [hf] at hb
      exact hfaults b (by rw [hf]; simp only [List.length_cons, List.take_succ_cons]
                          exact List.mem_cons_of_mem _ hb)

/-- No rollback: when the loop stops at a record it refuses (wrong field count, or
field 0 no integer), the rows of the accepted records before it stay in the
table and no further statement is sent. -/
theorem insertRecords_no_rollback (db : DB) (good rest : List (List String))
    (bad : List String)
    (hwf : ∀ record ∈ good, wellFormedRecord record)
    (hins : ∀ b ∈ db.faults.take good.length, b = false)
    (hbad : bad.length ≠ 7 ∨ Atoi (bad.getD 0 "") = none) :
    (insertRecords db (good ++ bad :: rest)).1 = some "error inserting data"
    ∧ (insertRecords db (good ++ bad :: rest)).2.rows = db.rows ++ rowsFrom db.nextId good
    ∧ (insertRecords db (good ++ bad :: rest)).2.log = db.log ++ good.map insertOf := by
  rw [insertRecords_append good (bad :: rest) db hwf hins, insertRecords_ok good db hwf hins,
    insertRecords]
  by_cases hlen : bad.length = 7
  · rw [insertQuestionData_bad_class _ bad hlen (hbad.resolve_left (fun h => h hlen))]
    exact ⟨rfl, rfl, rfl⟩
  · rw [insertQuestionData_bad_length _ bad hlen]
    exact ⟨rfl, rfl, rfl⟩

/-- C5, as stated, fails: a 7-field header, one accepted data record, then a record
of 2 fields.  The first data record of the wrong field count is at index 1, yet
`ReadAll` refuses the file and the insert of the record at index 0 is never
sent: the table stays empty. -/
theorem C5_preceding_record_not_inserted :
    List.findIdx (fun record => record.length != 7)
        [["1", "2+2?", "3", "4", "5", "6", "4"], ["1", "3*3?"]] = 1
    ∧ wellFormedRecord ["1", "2+2?", "3", "4", "5", "6", "4"]
    ∧ ProcessCSVFile DB.empty (uploadRequest
        [["class_id", "question_text", "option1", "option2", "option3", "option4",
          "correct_answer"],
         ["1", "2+2?", "3", "4", "5", "6", "4"], ["1", "3*3?"]])
        = (some "could not read CSV file", DB.empty)
    ∧ (ProcessCSVFile DB.empty (uploadRequest
        [["class_id", "question_text", "option1", "option2", "option3", "option4",
          "correct_answer"],
         ["1", "2+2?", "3", "4", "5", "6", "4"], ["1", "3*3?"]])).2.log
        ≠ [insertOf ["1", "2+2?", "3", "4", "5", "6", "4"]] := by
  decide

/-- C5, amended: when some data record of the upload has a field count other than
7, `ProcessCSVFile` sends no statement and leaves the database as it was, and
returns an error, so `UploadCSVHandler` answers 500, for fewer and for more than 7
fields alike; if `ReadAll` accepted the file, every data record has the wrong
count and the failing one is the first. -/
theorem C5_bad_field_count_aborts_without_insert (db : DB) (r : Request)
    (hdr : List String) (data : List (List String))
    (hfile : r.formFile = some (.lines (hdr :: data)))
    (hbad : ∃ record ∈ data, record.length ≠ 7) :
    (ProcessCSVFile db r).1 ≠ none
    ∧ (ProcessCSVFile db r).2 = db
    ∧ UploadCSVHandler db r = (.reply 500 (.text "Error uploading CSV file"), db)
    ∧ (ReadAll (.lines (hdr :: data)) ≠ none →
        List.findIdx (fun record => record.length != 7) data = 0
        ∧ ∀ record ∈ data, record.length ≠ 7) := by
  obtain ⟨bad, hmem, hne⟩ := hbad
  have key : (ProcessCSVFile db r).1 ≠ none ∧ (ProcessCSVFile db r).2 = db := by
    cases hread : ReadAll (.lines (hdr :: data)) with
    | none =>
      unfold ProcessCSVFile
      simp [hfile, hread]
    | some records =>
      obtain ⟨hrecs, huni⟩ := ReadAll_uniform hdr data records hread
      rw [ProcessCSVFile_parsed db r _ hdr data hfile (hrecs ▸ hread)]
      cases data with
      | nil => simp at hmem
      | cons d0 ds =>
        have h0 : d0.length ≠ 7 := by
          rw [huni d0 (List.mem_cons_self _ _), ← huni bad hmem]
          exact hne
        rw [insertRecords, insertQuestionData_bad_length db d0 h0]
        simp
  refine ⟨key.1, key.2, ?_, ?_⟩
  · unfold UploadCSVHandler
    cases hp : ProcessCSVFile db r with
    | mk err db1 =>
      rw [hp] at key
      cases err with
      | none => exact absurd rfl key.1
      | some e => simp only []; rw [← key.2]
  · intro hread
    cases hr : ReadAll (.lines (hdr :: data)) with
    | none => exact absurd hr hread
    | some records =>
      obtain ⟨_, huni⟩ := ReadAll_uniform hdr data records hr
      have hall : ∀ record ∈ data, record.length ≠ 7 := by
        intro record hrec
        rw [huni record hrec, ← huni bad hmem]
        exact hne
      refine ⟨?_, hall⟩
      cases data with
      | nil => simp at hmem
      | cons d0 ds =>
        have h0 : (d0.length != 7) = true := by
          simpa using hall d0 (List.mem_cons_self _ _)
        rw [List.findIdx_cons, h0]
        rfl

/-- C5 amended, at a file of 6-field records and at a 7-field file with one 8-field
record: nothing is inserted, the answer is 500. -/
theorem C5_bad_field_count_aborts_without_insert_witness :
    UploadCSVHandler tenOfClassOne (uploadRequest
        [["class_id", "question_text", "option1", "option2", "option3", "correct_answer"],
         ["1", "2+2?", "3", "4", "5", "4"]])
      = (.reply 500 (.text "Error uploading CSV file"), tenOfClassOne)
    ∧ UploadCSVHandler tenOfClassOne (uploadRequest
        [["class_id", "question_text", "option1", "option2", "option3", "option4",
          "correct_answer"],
         ["1", "2+2?", "3", "4", "5", "6", "4"],
         ["1", "3*3?", "6", "7", "8", "9", "9", "extra"]])
      = (.reply 500 (.text "Error uploading CSV file"), tenOfClassOne) :=
  ⟨(C5_bad_field_count_aborts_without_insert tenOfClassOne (uploadRequest
        [["class_id", "question_text", "option1", "option2", "option3", "correct_answer"],
         ["1", "2+2?", "3", "4", "5", "4"]])
      ["class_id", "question_text", "option1", "option2", "option3", "correct_answer"]
      [["1", "2+2?", "3", "4", "5", "4"]] rfl
      ⟨["1", "2+2?", "3", "4", "5", "4"], by decide, by decide⟩).2.2.1,
   (C5_bad_field_count_aborts_without_insert tenOfClassOne (uploadRequest
        [["class_id", "question_text", "option1", "option2", "option3", "option4",
          "correct_answer"],
         ["1", "2+2?", "3", "4", "5", "6", "4"],
         ["1", "3*3?", "6", "7", "8", "9", "9", "extra"]])
      ["class_id", "question_text", "option1", "option2", "option3", "option4",
          "correct_answer"]
      [["1", "2+2?", "3", "4", "5", "6", "4"],
       ["1", "3*3?", "6", "7", "8", "9", "9", "extra"]] rfl
      ⟨["1", "3*3?", "6", "7", "8", "9", "9", "extra"], by decide, by decide⟩).2.2.1⟩

/-! ## Quiz delivery: the claims -/

/-- A well-formed database stays so under `InsertQuestion`: with `DB.empty_wf`,
`DB.wf` is an invariant of the program. -/
theorem InsertQuestion_wf (db : DB) (id_cl : Int) (q : String) (options : List String)
    (cor : String) (hwf : db.wf) : (InsertQuestion db id_cl q options cor).2.wf := by
  unfold InsertQuestion DB.issue
  by_cases hf : db.faults.headD false = true
  · simp only [hf, if_true]
    exact hwf
  · simp only [hf, Bool.false_eq_true, if_false]
    refine ⟨?_, ?_⟩
    · simp only [List.map_append, List.map_cons, List.map_nil]
      rw [List.nodup_append]
      refine ⟨hwf.1, by simp, ?_⟩
      intro a ha hb
      rw [List.mem_singleton] at hb
      obtain ⟨row, hrow, rfl⟩ := List.mem_map.mp ha
      have := hwf.2 row hrow
      omega
    · intro row hrow
      rcases List.mem_append.mp hrow with h | h
      · have := hwf.2 row h
        show row.question_id < db.nextId + 1
        omega
      · rw [List.mem_singleton] at h
        subst h
        show db.nextId < db.nextId + 1
        omega

theorem DB.empty_wf : DB.empty.wf :=
  ⟨by decide, by intro row hrow; cases hrow⟩

theorem Atoi_empty : Atoi "" = none := rfl

/-- The handler past its two guards, on a query that succeeds. -/
theorem GetTestQuestionsHandler_past_guards (rand : List Row → List Row) (db : DB)
    (r : Request) (X : Int)
    (hclass : Atoi (r.Get "class") = some X) (hq : db.faults.headD false = false) :
    GetTestQuestionsHandler rand db r
      = (if (((rand (db.rows.filter (fun x => x.class_id = X))).take 10).map
              Row.toQuestion).length = 0
          then .reply 404 (.text "No questions found for the specified class")
          else .reply 200 (.questions true
            (((rand (db.rows.filter (fun x => x.class_id = X))).take 10).map Row.toQuestion)),
         (db.issue (.selectQuestions X)).2) := by
  have hne : r.Get "class" ≠ "" := by
    intro h
    rw [h, Atoi_empty] at hclass
    exact absurd hclass (by simp)
  unfold GetTestQuestionsHandler
  simp only [hne, if_false, hclass, GetTestQuestions, DB.issue, hq, Bool.false_eq_true]
  split <;> rfl

/-- C6: past the guards and on a query that succeeds, with `k >= 1` stored
questions of class `X`, the answer is 200 with the projections of `min(10, k)`
stored rows: at most 10, each stored with class id `X`, no stored row used twice
(ids pairwise distinct), and for `k <= 10` a permutation of all `k` rows of the
class. -/
theorem C6_get_returns_min_ten_of_class (rand : List Row → List Row) (db : DB)
    (r : Request) (X : Int)
    (hclass : Atoi (r.Get "class") = some X)
    (hq : db.faults.headD false = false)
    (hrand : ∀ l, (rand l).Perm l)
    (hwf : db.wf)
    (hk : 1 ≤ (db.rows.filter (fun x => x.class_id = X)).length) :
    ∃ sel : List Row,
      (GetTestQuestionsHandler rand db r).1
          = .reply 200 (.questions true (sel.map Row.toQuestion))
      ∧ (sel.map Row.toQuestion).length
          = min 10 (db.rows.filter (fun x => x.class_id = X)).length
      ∧ (sel.map Row.toQuestion).length ≤ 10
      ∧ sel.Subperm db.rows
      ∧ (∀ row ∈ sel, row.class_id = X)
      ∧ (∀ q ∈ sel.map Row.toQuestion, ∀ row ∈ db.rows,
          row.question_id = q.QuestionID → row.class_id = X)
      ∧ ((sel.map Row.toQuestion).map Question.QuestionID).Nodup
      ∧ ((db.rows.filter (fun x => x.class_id = X)).length ≤ 10 →
          sel.Perm (db.rows.filter (fun x => x.class_id = X))) := by
  have hp := hrand (db.rows.filter (fun x => x.class_id = X))
  have hlen : ((rand (db.rows.filter (fun x => x.class_id = X))).take 10).length
      = min 10 (db.rows.filter (fun x => x.class_id = X)).length := by
    rw [List.length_take, hp.length_eq]
  have hsub : ((rand (db.rows.filter (fun x => x.class_id = X))).take 10).Subperm db.rows :=
    ((List.take_sublist _ _).subperm.trans hp.subperm).trans (List.filter_sublist _).subperm
  have hcls : ∀ row ∈ (rand (db.rows.filter (fun x => x.class_id = X))).take 10,
      row.class_id = X := by
    intro row hrow
    have h1 : row ∈ db.rows.filter (fun x => x.class_id = X) :=
      hp.subset ((List.take_sublist _ _).subset hrow)
    simpa using (List.mem_filter.mp h1).2
  have hids : (((rand (db.rows.filter (fun x => x.class_id = X))).take 10).map
      Row.question_id).Nodup := by
    have h1 : ((db.rows.filter (fun x => x.class_id = X)).map Row.question_id).Nodup :=
      List.Nodup.sublist ((List.filter_sublist _).map _) hwf.1
    have h2 := ((hp.map Row.question_id).nodup_iff).mpr h1
    exact List.Nodup.sublist ((List.take_sublist _ _).map _) h2
  refine ⟨(rand (db.rows.filter (fun x => x.class_id = X))).take 10, ?_, ?_, ?_, hsub, hcls,
    ?_, ?_, ?_⟩
  · rw [GetTestQuestionsHandler_past_guards rand db r X hclass hq]
    simp only []
    rw [if_neg]
    rw [List.length_map, hlen]
    omega
  · rw [List.length_map, hlen]
  · rw [List.length_map, hlen]; omega
  · intro q hqm row hrow hid
    obtain ⟨s, hs, rfl⟩ := List.mem_map.mp hqm
    have hsrows : s ∈ db.rows := hsub.subset hs
    have : row = s := List.inj_on_of_nodup_map hwf.1 hrow hsrows hid
    rw [this]
    exact hcls s hs
  · rw [List.map_map]
    exact hids
  · intro hle
    rw [List.take_of_length_le (by rw [hp.length_eq]; exact hle)]
    exact hp

/-- C6 at class 2 of the sample table (one stored question), rows drawn in
reverse order. -/
theorem C6_get_returns_min_ten_of_class_witness :
    tenOfClassOne.wf
    ∧ ∃ sel : List Row,
        (GetTestQuestionsHandler List.reverse tenOfClassOne (getRequest "2")).1
          = .reply 200 (.questions true (sel.map Row.toQuestion))
        ∧ (sel.map Row.toQuestion).length = 1 := by
  have hwf : tenOfClassOne.wf := by
    refine ⟨by decide, ?_⟩
    intro row hrow
    have hall : ∀ x ∈ tenOfClassOne.rows, x.question_id < tenOfClassOne.nextId := by decide
    exact hall row hrow
  obtain ⟨sel, h1, h2, _⟩ := C6_get_returns_min_ten_of_class List.reverse tenOfClassOne
    (getRequest "2") 2 (by decide) rfl (fun l => List.reverse_perm l) hwf (by decide)
  exact ⟨hwf, sel, h1, h2.trans (by decide)⟩

/-- An absent key reads as the empty string. -/
theorem Request.Get_absent (r : Request) (key : String)
    (h : ∀ p ∈ r.query, p.1 ≠ key) : r.Get key = "" := by
  unfold Request.Get
  have : r.query.find? (fun p => p.1 == key) = none := by
    rw [List.find?_eq_none]
    intro p hp
    simpa using h p hp
  rw [this]

/-- C7: when `class` is absent or empty, or is not an integer for `Atoi`,
`GetTestQuestionsHandler` answers 400 and the database, its statement log
included, is as before: no query was sent. -/
theorem C7_get_rejects_missing_or_non_integer_class (rand : List Row → List Row)
    (db : DB) (r : Request)
    (h : (∀ p ∈ r.query, p.1 ≠ "class") ∨ r.Get "class" = ""
          ∨ Atoi (r.Get "class") = none) :
    (∃ msg, GetTestQuestionsHandler rand db r = (.reply 400 (.text msg), db))
    ∧ (GetTestQuestionsHandler rand db r).2.log = db.log
    ∧ (r.Get "class" = "" →
        GetTestQuestionsHandler rand db r = (.reply 400 (.text "Class ID is missing"), db))
    ∧ (r.Get "class" ≠ "" →
        GetTestQuestionsHandler rand db r = (.reply 400 (.text "Invalid class ID"), db)) := by
  have hempty : r.Get "class" = "" →
      GetTestQuestionsHandler rand db r = (.reply 400 (.text "Class ID is missing"), db) := by
    intro he
    unfold GetTestQuestionsHandler
    simp only [he, if_true]
  have hbad : r.Get "class" ≠ "" → Atoi (r.Get "class") = none →
      GetTestQuestionsHandler rand db r = (.reply 400 (.text "Invalid class ID"), db) := by
    intro hne hnone
    unfold GetTestQuestionsHandler
    simp only [hne, if_false, hnone]
  have hnone : Atoi (r.Get "class") = none := by
    rcases h with h | h | h
    · rw [Request.Get_absent r "class" h]; rfl
    · rw [h]; rfl
    · exact h
  by_cases he : r.Get "class" = ""
  · refine ⟨⟨_, hempty he⟩, by rw [hempty he], hempty, fun hne => absurd he hne⟩
  · refine ⟨⟨_, hbad he hnone⟩, by rw [hbad he hnone], hempty, fun hne => hbad hne hnone⟩

/-- C7 at a request without `class` and at `class=abc`, on the sample table. -/
theorem C7_get_rejects_missing_or_non_integer_class_witness :
    GetTestQuestionsHandler id tenOfClassOne ⟨[("grade", "1")], none, none⟩
        = (.reply 400 (.text "Class ID is missing"), tenOfClassOne)
    ∧ GetTestQuestionsHandler id tenOfClassOne (getRequest "abc")
        = (.reply 400 (.text "Invalid class ID"), tenOfClassOne) :=
  ⟨(C7_get_rejects_missing_or_non_integer_class id tenOfClassOne
      ⟨[("grade", "1")], none, none⟩ (Or.inl (by decide))).2.2.1 (by decide),
   (C7_get_rejects_missing_or_non_integer_class id tenOfClassOne (getRequest "abc")
      (Or.inr (Or.inr (by decide)))).2.2.2 (by decide)⟩

/-- C8: after a `delete-all-questions` that answered 200, a `get-test-questions`
with an integer `class`, on a query that succeeds, answers 404: the table is
empty, so is the sample, and an empty sample is answered 404, not 200. -/
theorem C8_delete_all_then_get_is_404 (rand : List Row → List Row) (db : DB)
    (rdel rget : Request) (X : Int)
    (hdel : (DeleteAllQuestionsHandler db rdel).1
              = .reply 200 (.text "All questions deleted successfully"))
    (hclass : Atoi (rget.Get "class") = some X)
    (hq : (DeleteAllQuestionsHandler db rdel).2.faults.headD false = false)
    (hrand : ∀ l, (rand l).Perm l) :
    (DeleteAllQuestionsHandler db rdel).2.rows = []
    ∧ (GetTestQuestions rand (DeleteAllQuestionsHandler db rdel).2 X).1 = .ok []
    ∧ (GetTestQuestionsHandler rand (DeleteAllQuestionsHandler db rdel).2 rget).1
        = .reply 404 (.text "No questions found for the specified class") := by
  have hrows : (DeleteAllQuestionsHandler db rdel).2.rows = [] := by
    unfold DeleteAllQuestionsHandler DeleteAllQuestions at hdel ⊢
    by_cases hf : (db.issue .deleteAll).1 = true
    · simp [hf] at hdel
    · simp [hf]
  have hnil : rand [] = [] := List.perm_nil.mp (hrand [])
  refine ⟨hrows, ?_, ?_⟩
  · unfold GetTestQuestions
    simp only [DB.issue, hq, Bool.false_eq_true, if_false, hrows, List.filter_nil, hnil,
      List.take_nil, List.map_nil]
  · rw [GetTestQuestionsHandler_past_guards rand _ rget X hclass hq]
    simp only [hrows, List.filter_nil, hnil, List.take_nil, List.map_nil, List.length_nil,
      if_true]

/-- C8 at the sample table and `class=1`. -/
theorem C8_delete_all_then_get_is_404_witness :
    (GetTestQuestionsHandler List.reverse
        (DeleteAllQuestionsHandler tenOfClassOne (getRequest "")).2 (getRequest "1")).1
      = .reply 404 (.text "No questions found for the specified class") :=
  (C8_delete_all_then_get_is_404 List.reverse tenOfClassOne (getRequest "") (getRequest "1") 1
    (by decide) (by decide) (by decide) (fun l => List.reverse_perm l)).2.2

/-- C9: when decoding the body fails, `SubmitAnswersHandler` answers 400 and the
database, its statement log included, is as before, whatever the query string
and the table hold. -/
theorem C9_submit_rejects_malformed_body (order : List Row → List Row) (db : DB)
    (r : Request) (hbody : r.jsonAnswers = none) :
    SubmitAnswersHandler order db r = (.reply 400 (.text "Invalid answer format"), db)
    ∧ (SubmitAnswersHandler order db r).2.log = db.log := by
  have h : SubmitAnswersHandler order db r
      = (.reply 400 (.text "Invalid answer format"), db) := by
    unfold SubmitAnswersHandler
    simp only [hbody]
  exact ⟨h, by rw [h]⟩

/-- C9 with a valid, an invalid and a missing `class`, on the sample table. -/
theorem C9_submit_rejects_malformed_body_witness :
    SubmitAnswersHandler id tenOfClassOne ⟨[("class", "1")], none, none⟩
        = (.reply 400 (.text "Invalid answer format"), tenOfClassOne)
    ∧ SubmitAnswersHandler id tenOfClassOne ⟨[("class", "x")], none, none⟩
        = (.reply 400 (.text "Invalid answer format"), tenOfClassOne)
    ∧ SubmitAnswersHandler id tenOfClassOne ⟨[], none, none⟩
        = (.reply 400 (.text "Invalid answer format"), tenOfClassOne) :=
  ⟨(C9_submit_rejects_malformed_body id tenOfClassOne ⟨[("class", "1")], none, none⟩ rfl).1,
   (C9_submit_rejects_malformed_body id tenOfClassOne ⟨[("class", "x")], none, none⟩ rfl).1,
   (C9_submit_rejects_malformed_body id tenOfClassOne ⟨[], none, none⟩ rfl).1⟩

/-! ## Startup: the claims -/

/-- C10, as stated, fails: the connection step succeeds, `CREATE TABLE students`
succeeds, `CREATE TABLE questions` errors; `InitDB` returns
"could not create tables" and `main` exits. -/
theorem C10_questions_table_failure_is_fatal :
    (InitDB true ⟨[], 1, [false, true], []⟩).1 = some "could not create tables"
    ∧ (InitDB true ⟨[], 1, [false, true], []⟩).2.log = [.createStudents, .createQuestions]
    ∧ mainStartup true ⟨[], 1, [false, true], []⟩ = .exited := by
  decide

/-- C10, amended: `InitDB` returns success exactly when the connection step
succeeds and `CREATE TABLE questions`, the second statement, does not error,
whatever the outcome of `CREATE TABLE students`, the first; `main` exits exactly
when `InitDB` returns an error, and otherwise goes on. -/
theorem C10_InitDB_success_iff (connOk : Bool) (db : DB) :
    ((InitDB connOk db).1 = none ↔ connOk = true ∧ db.faults.tail.headD false = false)
    ∧ (mainStartup connOk db = .exited ↔ (InitDB connOk db).1 ≠ none)
    ∧ (mainStartup connOk db = .exited
        ↔ connOk = false ∨ db.faults.tail.headD false = true)
    ∧ (connOk = false → InitDB connOk db = (some "could not connect to database", db)) := by
  have h1 : (InitDB connOk db).1 = none
      ↔ connOk = true ∧ db.faults.tail.headD false = false := by
    cases connOk
    · simp [InitDB]
    · have hdef : (InitDB true db).1
          = if db.faults.tail.headD false = true then some "could not create tables"
            else none := by
        unfold InitDB DB.issue
        simp only [Bool.not_true, Bool.false_eq_true, if_false]
        split <;> rfl
      rw [hdef]
      cases db.faults.tail.headD false <;> simp
  have h2 : mainStartup connOk db = .exited ↔ (InitDB connOk db).1 ≠ none := by
    unfold mainStartup
    cases hi : InitDB connOk db with
    | mk err db1 => cases err <;> simp
  refine ⟨h1, h2, ?_, ?_⟩
  · rw [h2, Ne, h1]
    cases connOk <;> cases db.faults.tail.headD false <;> simp
  · intro hc
    subst hc
    rfl

end QuizService
